import Mathlib

/-!
Verification development for the minitrace LocalSpan/Span reproduction worker
(`src/src/lib.rs`).

The repository is a single request handler that demonstrates an inconsistency
between two span-propagation mechanisms of the minitrace library:

* Mechanism A, `LocalSpan::enter_with_local_parent`, a scoped guard that
  registers the span with the task-local `LocalCollector`;
* Mechanism B, `future.in_span(Span::enter_with_local_parent(..))`, a future
  combinator that attaches a `Span`; such spans do not register with the
  enclosing local collection context and are silently absent from the
  collected records.

The minitrace library itself is an external crate, not part of this
repository, so its local-collection semantics are modelled here from the
specification (sections 3, 4.1-4.3) and from the output dump documented in
the source comments (lib.rs lines 73-123): the collected records for the
fixed scenario are exactly `root`, `child`, `nested_wrapped`, with
`child.parent_id = root.span_id` and `nested_wrapped.parent_id =
child.span_id`, all carrying the caller-supplied trace id.

Timestamps (`begin_time_unix_ns`, `duration_ns`) and the always-empty
`properties`/`events` fields of `SpanRecord` are real-time respectively
constant data that no claim depends on; they are omitted from the model.
-/

namespace Repro

/-- Raw span data accumulated by the local collection context while a span is
entered: the span id assigned by the library, the id of the span that was
logically current (the local parent) at entry time, if any, and the name.
Modelled from the spec: "Span Entry Guard ... records its parent linkage based
on whatever was current when it was entered". -/
structure RawSpan where
  id : Nat
  parent : Option Nat
  name : String
deriving DecidableEq, Repr

/-- Modelled from the spec: the Local Collection Context
("process/task-local accumulator of span data gathered during a logical unit
of work").  `stack` is the stack of currently entered Mechanism-A span ids
(current span at the head), `nextId` the next span id the library will assign
(span ids are "assigned by the tracking library, not user code"), and
`collected` the accumulated raw spans in entry order. -/
structure LocalCollector where
  stack : List Nat
  nextId : Nat
  collected : List RawSpan
deriving DecidableEq, Repr

/-- Modelled from the spec: `LocalCollector::start()` "creates a new empty
accumulation context scoped to the calling task".  `i0` is the first span id
the library will assign (the library seeds its id counter itself). -/
def LocalCollector.start (i0 : Nat) : LocalCollector :=
  ⟨[], i0, []⟩

/-- Modelled from the spec: entering a span via Mechanism A
(`LocalSpan::enter_with_local_parent`) assigns it the next library id, records
its parent as whichever span was logically current at entry time, and makes it
current for nested Mechanism-A entries. -/
def enterLocal (n : String) (σ : LocalCollector) : LocalCollector :=
  { stack := σ.nextId :: σ.stack
    nextId := σ.nextId + 1
    collected := σ.collected ++ [⟨σ.nextId, σ.stack.head?, n⟩] }

/-- Modelled from the spec: releasing a Mechanism-A span guard at end of scope
makes the enclosing span current again. -/
def exitLocal (σ : LocalCollector) : LocalCollector :=
  { σ with stack := σ.stack.tail }

/-- The traced control flow of the handler, as far as the local collection
context can observe it: sequencing, a scoped Mechanism-A entry
(`LocalSpan::enter_with_local_parent` guard around a body), and a Mechanism-B
wrapper (`.in_span(Span::enter_with_local_parent(..))` around a future). -/
inductive Prog where
  | skip
  | seq (p q : Prog)
  | localSpan (n : String) (body : Prog)
  | inSpan (n : String) (body : Prog)
deriving DecidableEq, Repr

/-- Effect of a traced program on the local collection context.  Modelled from
the spec: a Mechanism-A entry is bracketed enter/exit; a Mechanism-B span
"does not register with the enclosing Local Collection Context" (spec 4.2), so
`inSpan` only runs its body.  Every operation is total: there is no error
path anywhere in collection (spec 4.3). -/
def run : Prog → LocalCollector → LocalCollector
  | .skip, σ => σ
  | .seq p q, σ => run q (run p σ)
  | .localSpan n b, σ => exitLocal (run b (enterLocal n σ))
  | .inSpan _ b, σ => run b σ

/-- Modelled from the spec: `collect()` "drains all spans captured through
Mechanism A ... accumulated since start()" — it returns the accumulated raw
spans and leaves the context empty (drain semantics). -/
def LocalCollector.collect (σ : LocalCollector) : List RawSpan × LocalCollector :=
  (σ.collected, { σ with collected := [] })

/-- The caller-supplied trace/span context passed to `to_span_records`
(`SpanContext::new(TraceId(1), SpanId(1))` in `main`). -/
structure SpanContext where
  trace_id : Nat
  span_id : Nat
deriving DecidableEq, Repr

/-- Span record as printed by the reproduction (trace id, span id, parent id,
name); timestamps and always-empty property/event lists omitted. -/
structure SpanRecord where
  trace_id : Nat
  span_id : Nat
  parent_id : Nat
  name : String
deriving DecidableEq, Repr

/-- Conversion of one raw span to a record under a supplied context: the
context trace id is applied uniformly, and a span with no local parent is
parented to the supplied context span id (spec: "the supplied trace id/span
id context pair ... is applied uniformly as the root ancestry reference for
top-level spans lacking another parent"). -/
def toRecord (c : SpanContext) (r : RawSpan) : SpanRecord :=
  ⟨c.trace_id, r.id, r.parent.getD c.span_id, r.name⟩

/-- Modelled from the spec: `LocalSpans::to_span_records(span_context)`. -/
def to_span_records (c : SpanContext) (rs : List RawSpan) : List SpanRecord :=
  rs.map (toRecord c)

/-- `async fn call_nested_future_ext() {}` — empty body, enters no span. -/
def call_nested_future_ext : Prog := .skip

/-- `async fn nested_wrapped() {}` — empty body, enters no span. -/
def nested_wrapped : Prog := .skip

/-- `func_with_trace` as traced: the `trace` attribute on an async fn wraps
the whole body via Mechanism B under the function name (this is why no
`func_with_trace` record appears in the documented output); inside, the
`_child` guard covers the rest of the body, which awaits
`call_nested_future_ext` wrapped in the Mechanism-B span `in_span_async` and
then enters the `nested_wrapped` guard around `nested_wrapped().await`. -/
def func_with_trace : Prog :=
  .inSpan "func_with_trace"
    (.localSpan "child"
      (.seq (.inSpan "in_span_async" call_nested_future_ext)
        (.localSpan "nested_wrapped" nested_wrapped)))

/-- The traced section of `main`: the `root` guard around
`func_with_trace().await`. -/
def tracedSection : Prog :=
  .localSpan "root" func_with_trace

/-- Names of the spans a program enters through Mechanism A. -/
def aNames : Prog → List String
  | .skip => []
  | .seq p q => aNames p ++ aNames q
  | .localSpan n b => n :: aNames b
  | .inSpan _ b => aNames b

/-- Number of Mechanism-A span entries a program performs. -/
def countA : Prog → Nat
  | .skip => 0
  | .seq p q => countA p + countA q
  | .localSpan _ b => countA b + 1
  | .inSpan _ b => countA b

/-- The span records the deferred flush task logs: collect the context that
ran the traced section, then convert with `SpanContext::new(TraceId(1),
SpanId(1))`.  `i0` is the first span id the library assigns during the
request (13461468910679228417 in the documented run). -/
def flushOutput (i0 : Nat) : List SpanRecord :=
  to_span_records ⟨1, 1⟩ ((run tracedSection (LocalCollector.start i0)).collect).1

/-- Inbound request from the host edge-compute runtime; its contents are
never inspected by the handler. -/
structure Request where
  url : String
  body : String

/-- Response returned to the client. -/
structure Response where
  status : Nat
  body : String
deriving DecidableEq, Repr

/-- `Response::ok(body)` — success status with the given text body. -/
def Response.ok (b : String) : Response :=
  ⟨200, b⟩

/-- The handler `main`: runs the traced section, schedules the deferred
flush, and unconditionally returns `Response::ok("Hello, World!")`.  The
result pairs the response with the records the deferred flush will log. -/
def main (_req : Request) (i0 : Nat) : Response × List SpanRecord :=
  (Response.ok "Hello, World!", flushOutput i0)

/-- Observable events of one request, in order: host log lines, Mechanism-A
span entries and exits, production of the response value, and the deferred
collect-and-log flush. -/
inductive Event where
  | log (s : String)
  | enterSpan (n : String)
  | exitSpan (n : String)
  | respond
  | flush
deriving DecidableEq, Repr

/-- Mechanism-A entry and exit events of a traced program, in program order
(Mechanism-B spans are invisible to the local collection context). -/
def progEvents : Prog → List Event
  | .skip => []
  | .seq p q => progEvents p ++ progEvents q
  | .localSpan n b => Event.enterSpan n :: (progEvents b ++ [Event.exitSpan n])
  | .inSpan _ b => progEvents b

/-- Modelled from the spec: the event order of one request.  The task passed
to `ctx.wait_until` is "scheduled to execute after the primary response value
is produced" and "must complete even though the handler has already returned"
(spec 4.4), so the flush events follow `respond` and run to completion. -/
def mainEvents : List Event :=
  [Event.log "started"] ++ progEvents tracedSection ++
    [Event.respond, Event.log "flushing in background", Event.flush,
      Event.log "span_records"]

/-- Modelled from the spec: process-wide panic-hook state ("installed once at
process/worker-instance startup, redirects panic output to the host
diagnostic log channel instead of terminating silently"). -/
structure PanicState where
  hookInstalled : Bool
  diagLog : List String
deriving DecidableEq, Repr

/-- `start()` (the worker start event): installs the hook
(`std::panic::set_hook(Box::new(console_error_panic_hook::hook))`). -/
def start (s : PanicState) : PanicState :=
  { s with hookInstalled := true }

/-- Outcome of a panic: the resulting hook state and whether the process
crashed silently (without a diagnostic log entry). -/
structure PanicOutcome where
  state : PanicState
  silentCrash : Bool
deriving DecidableEq, Repr

/-- Modelled from the spec: a panic invokes the installed hook, which emits
exactly one diagnostic log entry; without a hook the process terminates
silently. -/
def raisePanic (msg : String) (s : PanicState) : PanicOutcome :=
  if s.hookInstalled then
    ⟨{ s with diagLog := s.diagLog ++ [msg] }, false⟩
  else
    ⟨s, true⟩

/-- Running a traced program only appends to the accumulated raw spans: it
adds exactly one raw span per Mechanism-A entry, and every appended span is
named by a Mechanism-A entry of the program. -/
theorem run_collected_spec (p : Prog) (σ : LocalCollector) :
    ∃ new, (run p σ).collected = σ.collected ++ new ∧
      new.length = countA p ∧ ∀ r ∈ new, r.name ∈ aNames p := by
  induction p generalizing σ with
  | skip =>
    exact ⟨[], by simp [run], rfl, by simp⟩
  | seq p q ihp ihq =>
    obtain ⟨n1, h1, l1, m1⟩ := ihp σ
    obtain ⟨n2, h2, l2, m2⟩ := ihq (run p σ)
    refine ⟨n1 ++ n2, ?_, ?_, ?_⟩
    · simp [run, h2, h1]
    · simp [l1, l2, countA]
    · intro r hr
      rcases List.mem_append.mp hr with h | h
      · exact List.mem_append.mpr (Or.inl (m1 r h))
      · exact List.mem_append.mpr (Or.inr (m2 r h))
  | localSpan n b ih =>
    obtain ⟨nb, hb, lb, mb⟩ := ih (enterLocal n σ)
    refine ⟨⟨σ.nextId, σ.stack.head?, n⟩ :: nb, ?_, ?_, ?_⟩
    · have he : (run (Prog.localSpan n b) σ).collected
          = (run b (enterLocal n σ)).collected := rfl
      rw [he, hb]
      simp [enterLocal]
    · simp [lb, countA]
    · intro r hr
      rcases List.mem_cons.mp hr with h | h
      · subst h; exact List.mem_cons_self _ _
      · exact List.mem_cons_of_mem _ (mb r h)
  | inSpan n b ih =>
    obtain ⟨nb, hb, lb, mb⟩ := ih σ
    exact ⟨nb, by simpa [run] using hb, by simpa [countA] using lb,
      by simpa [aNames] using mb⟩

/-- Claim C1: running the fixed scenario of `main` (enter LocalSpan "root",
await `func_with_trace` which is traced and enters LocalSpan "child", wraps
`call_nested_future_ext` in the Span "in_span_async", and enters LocalSpan
"nested_wrapped"), then collecting and converting, yields records named
exactly root, child, nested_wrapped, with child parented to root and
nested_wrapped parented to child, and no record named in_span_async or
func_with_trace — whatever id seed the library starts from. -/
theorem c1_fixed_scenario_records (i0 : Nat) :
    (flushOutput i0).map SpanRecord.name = ["root", "child", "nested_wrapped"] ∧
    ((flushOutput i0)[1]?).map SpanRecord.parent_id
      = ((flushOutput i0)[0]?).map SpanRecord.span_id ∧
    ((flushOutput i0)[2]?).map SpanRecord.parent_id
      = ((flushOutput i0)[1]?).map SpanRecord.span_id ∧
    ((flushOutput i0).all fun r =>
      r.name != "in_span_async" && r.name != "func_with_trace") = true :=
  ⟨rfl, rfl, rfl, rfl⟩

/-- Claim C4: `collect()` drains the local collection context: a second
collect in succession on the same context returns the empty span set, while
the first returns everything accumulated. -/
theorem c4_collect_drains (σ : LocalCollector) :
    ((σ.collect).2.collect).1 = [] ∧ (σ.collect).1 = σ.collected :=
  ⟨rfl, rfl⟩

/-- Claim C6: the handler returns the same fixed successful response with
body "Hello, World!" for every inbound request and whatever happens in the
tracing path (any library id seed): two runs of `main` on any two requests
produce identical response values. -/
theorem c6_response_fixed (r1 r2 : Request) (i1 i2 : Nat) :
    (main r1 i1).1 = (main r2 i2).1 ∧
    (main r1 i1).1 = Response.ok "Hello, World!" :=
  ⟨rfl, rfl⟩

/-- Claim C7: after the one-time hook installation at worker startup, a panic
anywhere produces exactly one diagnostic log entry and the process does not
crash silently; installing the hook again is a no-op. -/
theorem c7_panic_hook (s : PanicState) (msg : String) :
    (raisePanic msg (start s)).silentCrash = false ∧
    (raisePanic msg (start s)).state.diagLog.length = s.diagLog.length + 1 ∧
    start (start s) = start s := by
  refine ⟨rfl, ?_, rfl⟩
  simp [raisePanic, start]

/-- Claim C9: awaiting the helper futures `call_nested_future_ext` and
`nested_wrapped` by themselves has no effect on the local collection context,
and the records collected for the scenario are named exactly by its
Mechanism-A entry points (root, child, nested_wrapped) — nothing else
produces a record. -/
theorem c9_helpers_no_effect (σ : LocalCollector) (i0 : Nat) :
    run call_nested_future_ext σ = σ ∧
    run nested_wrapped σ = σ ∧
    (flushOutput i0).map SpanRecord.name = aNames tracedSection :=
  ⟨rfl, rfl, rfl⟩

/-- Claim C2: a span entered via Mechanism B (the `in_span` future combinator
with a `Span`) never reaches the records returned by `collect` — for any
traced program none of whose Mechanism-A entries uses that name, the collect
output holds no record with it — and the omission is silent: the `in_span`
wrapper leaves the local collection context exactly as its body does, so no
error value, panic, or diagnostic is possible and `collect` (a total
function) has no error path. -/
theorem c2_mechanism_b_dropped_silently (p b : Prog) (n : String) (i0 : Nat)
    (σ : LocalCollector) (h : n ∉ aNames p) :
    (((run p (LocalCollector.start i0)).collect).1.filter
        fun r => r.name == n) = [] ∧
    run (Prog.inSpan n b) σ = run b σ := by
  refine ⟨?_, rfl⟩
  obtain ⟨np, hp, -, mp⟩ := run_collected_spec p (LocalCollector.start i0)
  have hc : ((run p (LocalCollector.start i0)).collect).1 = np := by
    simpa [LocalCollector.collect, LocalCollector.start] using hp
  rw [hc, List.filter_eq_nil_iff]
  intro r hr hn
  exact h ((beq_iff_eq.mp hn) ▸ mp r hr)

/-- Witness for C2 at the scenario program and the Mechanism-B span
"in_span_async". -/
theorem c2_mechanism_b_dropped_silently_witness :
    ("in_span_async" ∉ aNames tracedSection) ∧
    ((((run tracedSection (LocalCollector.start 2)).collect).1.filter
        fun r => r.name == "in_span_async") = []) :=
  ⟨by decide,
    (c2_mechanism_b_dropped_silently tracedSection Prog.skip "in_span_async" 2
      (LocalCollector.start 2) (by decide)).1⟩

/-- Counterexample to claim C3 as stated: the span created by the `trace`
attribute on `func_with_trace` is claimed to yield exactly one record, but at
id seed 2 the collected record set holds no record named "func_with_trace" at
all. -/
theorem c3_annotation_span_counterexample :
    ¬ (((flushOutput 2).filter fun r => r.name == "func_with_trace").length
        = 1) := by
  decide

/-- Claim C3 (amended): for every span entered by a direct
`LocalSpan::enter_with_local_parent` call while the collector is active,
collecting after it exits yields exactly one record for it — it is appended
right after the previously accumulated spans, carries the next library id,
and its parent is whichever span was logically current at entry — and in
general every traced program adds exactly one raw span per Mechanism-A entry.
(The `trace` attribute on an async fn instead wraps the body via the
Mechanism-B combinator, so its span yields no record.) -/
theorem c3_direct_localspan_recorded (n : String) (b : Prog) (σ : LocalCollector) :
    (((run (Prog.localSpan n b) σ).collected).drop σ.collected.length).head?
      = some ⟨σ.nextId, σ.stack.head?, n⟩ ∧
    ∀ p : Prog, (run p σ).collected.length = σ.collected.length + countA p := by
  constructor
  · obtain ⟨nb, hb, -, -⟩ := run_collected_spec b (enterLocal n σ)
    have he : (run (Prog.localSpan n b) σ).collected
        = σ.collected ++ (⟨σ.nextId, σ.stack.head?, n⟩ :: nb) := by
      have h0 : (run (Prog.localSpan n b) σ).collected
          = (run b (enterLocal n σ)).collected := rfl
      rw [h0, hb]
      simp [enterLocal]
    rw [he, List.drop_left]
    rfl
  · intro p
    obtain ⟨np, hp, lp, -⟩ := run_collected_spec p σ
    simp [hp, lp]

/-- Claim C5: converting with the caller-supplied context
`SpanContext::new(TraceId(1), SpanId(1))` stamps trace id 1 on every record,
parents every raw span that has no local parent to span id 1, and in the
fixed scenario all three records carry trace id 1 with the top-level `root`
record parented to 1. -/
theorem c5_context_applied_uniformly (raws : List RawSpan) (i0 : Nat) :
    ((to_span_records ⟨1, 1⟩ raws).all fun r => r.trace_id == 1) = true ∧
    (((raws.filter fun r => r.parent == none).map (toRecord ⟨1, 1⟩)).all
        fun r => r.parent_id == 1) = true ∧
    (flushOutput i0).map SpanRecord.trace_id = [1, 1, 1] ∧
    ((flushOutput i0).map SpanRecord.parent_id).head? = some 1 := by
  refine ⟨?_, ?_, rfl, rfl⟩
  · simp [to_span_records, toRecord, List.all_eq_true]
  · rw [List.all_eq_true]
    intro r hr
    rw [List.mem_map] at hr
    obtain ⟨raw, hraw, hconv⟩ := hr
    rw [List.mem_filter] at hraw
    have hp : raw.parent = none := by
      have := hraw.2
      rwa [beq_iff_eq] at this
    subst hconv
    simp [toRecord, hp]

/-- Claim C8: in the event order of one request, the response value is
produced before the deferred flush runs; every Mechanism-A span entered
during the request has exited before the flush; and the flush's collect
observes all of them (root, child, nested_wrapped), for any library id
seed. -/
theorem c8_deferred_flush_after_response :
    mainEvents.indexOf Event.respond < mainEvents.indexOf Event.flush ∧
    (∀ n : String, Event.enterSpan n ∈ mainEvents →
      mainEvents.indexOf (Event.exitSpan n) < mainEvents.indexOf Event.flush) ∧
    ∀ i0 : Nat, (flushOutput i0).map SpanRecord.name
      = ["root", "child", "nested_wrapped"] := by
  refine ⟨by decide, ?_, fun i0 => rfl⟩
  intro n h
  have he : mainEvents = [Event.log "started", Event.enterSpan "root",
      Event.enterSpan "child", Event.enterSpan "nested_wrapped",
      Event.exitSpan "nested_wrapped", Event.exitSpan "child",
      Event.exitSpan "root", Event.respond, Event.log "flushing in background",
      Event.flush, Event.log "span_records"] := rfl
  rw [he] at h ⊢
  simp only [List.mem_cons, List.not_mem_nil, or_false] at h
  rcases h with h | h | h | h | h | h | h | h | h | h | h <;> cases h <;> decide

/-- Witness for C8 at the span "root". -/
theorem c8_deferred_flush_after_response_witness :
    (Event.enterSpan "root" ∈ mainEvents) ∧
    mainEvents.indexOf (Event.exitSpan "root")
      < mainEvents.indexOf Event.flush :=
  ⟨by decide, c8_deferred_flush_after_response.2.1 "root" (by decide)⟩

/-- Claim C10: provided the library id seed is at least 2 (the library
assigns its own ids, 13461468910679228417 in the documented run), the span
ids of one collect-and-convert are pairwise distinct and distinct from the
supplied root id 1, and every parent id is either 1 or the span id of
another record in the set, so parent linkage forms a tree rooted at the
supplied span context. -/
theorem c10_records_form_tree (i0 : Nat) (h : 2 ≤ i0) :
    (flushOutput i0).Pairwise (fun a b => a.span_id ≠ b.span_id) ∧
    (∀ r ∈ flushOutput i0, r.span_id ≠ 1) ∧
    (∀ r ∈ flushOutput i0, r.parent_id = 1 ∨
      ∃ r2 ∈ flushOutput i0, r2.span_id = r.parent_id) := by
  have he : flushOutput i0 = [⟨1, i0, 1, "root"⟩, ⟨1, i0 + 1, i0, "child"⟩,
      ⟨1, i0 + 2, i0 + 1, "nested_wrapped"⟩] := rfl
  rw [he]
  refine ⟨?_, ?_, ?_⟩
  · refine List.Pairwise.cons ?_ (List.Pairwise.cons ?_
      (List.Pairwise.cons ?_ List.Pairwise.nil))
    · intro b hb
      fin_cases hb <;> simp
    · intro b hb
      fin_cases hb
      simp
    · intro b hb
      simp at hb
  · intro r hr
    fin_cases hr <;> simp <;> omega
  · intro r hr
    fin_cases hr
    · exact Or.inl rfl
    · exact Or.inr ⟨⟨1, i0, 1, "root"⟩, by simp, rfl⟩
    · exact Or.inr ⟨⟨1, i0 + 1, i0, "child"⟩, by simp, rfl⟩

/-- Witness for C10 at id seed 2. -/
theorem c10_records_form_tree_witness :
    2 ≤ 2 ∧ (flushOutput 2).Pairwise (fun a b => a.span_id ≠ b.span_id) :=
  ⟨by decide, (c10_records_form_tree 2 (by decide)).1⟩

end Repro
